import Mathlib

/-!
Formal model of the multi-stage onboarding system.

The definitions below are a shallow embedding of the Python sources:
  * `agents/constants.py`            — agent-name and status constants
  * `supervised_onboarding_with_llm.py` — supervisor routing, graph loop,
    `process_onboarding` with its recursion limit of 50
  * `subgraphs/validation_subgraph.py`  — per-field validators
  * `subgraphs/api_subgraph.py`         — external entity-creation call with retry
  * `signup_agent.py`                   — `process_signup`
  * `state_manager.py`                  — `save_state`, `load_state`,
    `save_entity_feature`, `get_entity_features`
  * `agents/state/graph_state.py`       — `migrate_state`

Python dictionaries holding string-valued fields are modelled as association
lists (`Dict` below); machine-independent behaviour (timestamps, external
call outcomes, cache availability) is passed in explicitly as parameters so
that every function is pure and executable.
-/

namespace Onboarding

/-! ## Constants (agents/constants.py) -/

def AGENT_SUPERVISOR : String := "supervisor"

def AGENT_SIGNUP : String := "signup"

def AGENT_COMPANY : String := "company"

def AGENT_KYC : String := "kyc"

def AGENT_BANK : String := "bank"

def AGENT_COMPLETE : String := "complete"

def AGENT_END : String := "end"

def STATUS_IN_PROGRESS : String := "in_progress"

def STATUS_COMPLETED : String := "completed"

def STATUS_ERROR : String := "error"

/-! ## Python string primitives

`pyIn needle hay` is Python's `needle in hay` (substring containment);
`pyLower` is `str.lower` and `pyStrip` is `str.strip` (both restricted to the
ASCII behaviour exercised by the sources). -/

def subAt (n : List Char) : List Char → Bool
  | [] => n.isEmpty
  | h :: t => List.isPrefixOf n (h :: t) || subAt n t

def pyIn (needle hay : String) : Bool :=
  subAt needle.data hay.data

def pyLower (s : String) : String :=
  ⟨s.data.map Char.toLower⟩

def pyStrip (s : String) : String :=
  ⟨((s.data.dropWhile Char.isWhitespace).reverse.dropWhile Char.isWhitespace).reverse⟩

/-! ## Completion flags and the supervisor
(`SupervisedOnboardingSystemWithLLM._supervisor_agent`) -/

structure Flags where
  signup_complete : Bool
  company_complete : Bool
  kyc_complete : Bool
  bank_complete : Bool
deriving DecidableEq, Repr

def allFour (f : Flags) : Bool :=
  f.signup_complete && f.company_complete && f.kyc_complete && f.bank_complete

/-- The keyword/flag decision chain of `_supervisor_agent` (lines 154-171 of
`supervised_onboarding_with_llm.py`), applied to the already-lowercased LLM
decision text. -/
def supervisorNextAgent (f : Flags) (d : String) : String :=
  if pyIn AGENT_SIGNUP d || !f.signup_complete then AGENT_SIGNUP
  else if pyIn AGENT_COMPANY d || (f.signup_complete && !f.company_complete) then AGENT_COMPANY
  else if pyIn AGENT_KYC d || (f.company_complete && !f.kyc_complete) then AGENT_KYC
  else if pyIn AGENT_BANK d || (f.kyc_complete && !f.bank_complete) then AGENT_BANK
  else if pyIn AGENT_COMPLETE d ||
      (f.signup_complete && f.company_complete && f.kyc_complete && f.bank_complete) then AGENT_COMPLETE
  else AGENT_END

/-- `_supervisor_agent`'s routing result: the raw LLM output is lowercased
(`llm_decision = self._call_llm(...).lower()`) and fed to the decision chain.
Only the returned `next_agent` is modelled; the log message is elided. -/
def supervisorAgent (f : Flags) (llmOutput : String) : String :=
  supervisorNextAgent f (pyLower llmOutput)

/-- The spec's transition rule (spec section 4.4): the first incomplete stage
in the order signup, company, kyc, bank; `complete` when all four stages are
complete.  Written from the spec's words for comparison with
`supervisorAgent`. -/
def firstIncompleteAgent (f : Flags) : String :=
  if !f.signup_complete then AGENT_SIGNUP
  else if !f.company_complete then AGENT_COMPANY
  else if !f.kyc_complete then AGENT_KYC
  else if !f.bank_complete then AGENT_BANK
  else AGENT_COMPLETE

/-- The lowered advisory text contains none of the five agent keywords that
`_supervisor_agent` tests with Python's `in`. -/
def keywordFree (s : String) : Bool :=
  !pyIn AGENT_SIGNUP (pyLower s) && !pyIn AGENT_COMPANY (pyLower s) &&
  !pyIn AGENT_KYC (pyLower s) && !pyIn AGENT_BANK (pyLower s) &&
  !pyIn AGENT_COMPLETE (pyLower s)

/-! ## The top-level graph loop
(`_build_graph`, `_router`, `process_onboarding`)

Nodes update an `OnboardingState`; after every node the conditional edge
`_router` either returns `END` (when `task_complete` is set) or the agent
named in `next_agent`.  `process_onboarding` invokes the compiled graph with
`recursion_limit = 50`; LangGraph raises `GraphRecursionError` when a 51st
superstep would be needed, and the `except` clause turns any exception into a
result dict with `status = STATUS_ERROR` and an `error` entry.

Environment-dependent behaviour is supplied by `env : Nat -> String × Bool`:
at superstep `i`, `(env i).1` is the raw LLM output consumed by the
supervisor, and `(env i).2` is the `success` value of the stage processor run
by a stage node (LLM extraction plus `process_*` of the child agent).  Only
the fields read by the router and by `process_onboarding`'s result are
modelled; message strings and the onboarding id are elided. -/

inductive Node where
  | supervisor
  | signup
  | company
  | kyc
  | bank
  | complete
deriving DecidableEq, Repr

structure GState where
  flags : Flags
  next_agent : String
  task_complete : Bool
deriving DecidableEq, Repr

/-- Initial state built by `process_onboarding`: all completion flags default
to `False`, `task_complete` defaults to `False`, `next_agent` is
`"supervisor"`. -/
def initialGState : GState :=
  { flags := ⟨false, false, false, false⟩, next_agent := AGENT_SUPERVISOR, task_complete := false }

/-- One node execution: `_supervisor_agent`, the four `_*_node` stage
handlers (each overwrites its completion flag with the stage result's
`success` and routes back to the supervisor), and `_complete_node` (sets
`task_complete` and routes to `"end"`). -/
def runNode (n : Node) (s : GState) (llmOutput : String) (stageOk : Bool) : GState :=
  match n with
  | .supervisor => { s with next_agent := supervisorAgent s.flags llmOutput }
  | .signup =>
      { s with flags := { s.flags with signup_complete := stageOk }, next_agent := AGENT_SUPERVISOR }
  | .company =>
      { s with flags := { s.flags with company_complete := stageOk }, next_agent := AGENT_SUPERVISOR }
  | .kyc =>
      { s with flags := { s.flags with kyc_complete := stageOk }, next_agent := AGENT_SUPERVISOR }
  | .bank =>
      { s with flags := { s.flags with bank_complete := stageOk }, next_agent := AGENT_SUPERVISOR }
  | .complete => { s with task_complete := true, next_agent := AGENT_END }

/-- The conditional-edge mapping of `_build_graph`: the names the router may
return are resolved to graph nodes; any other name has no edge. -/
def parseAgent (s : String) : Option Node :=
  if s = AGENT_SUPERVISOR then some .supervisor
  else if s = AGENT_SIGNUP then some .signup
  else if s = AGENT_COMPANY then some .company
  else if s = AGENT_KYC then some .kyc
  else if s = AGENT_BANK then some .bank
  else if s = AGENT_COMPLETE then some .complete
  else none

def graphStep (env : Nat → String × Bool) (i : Nat) (n : Node) (s : GState) : GState :=
  runNode n s (env i).1 (env i).2

inductive RunResult where
  | done (s : GState) (steps : Nat)
  | limitExceeded
  | badRoute
deriving DecidableEq, Repr

/-- The LangGraph execution loop under a recursion limit: `fuel` supersteps
remain, `i` supersteps have already run.  After each node, `_router` ends the
run when `task_complete` is set and otherwise follows the edge named by
`next_agent`; exhausting the limit raises (`limitExceeded`). -/
def runLoop (env : Nat → String × Bool) : Nat → Nat → Node → GState → RunResult
  | 0, _, _, _ => .limitExceeded
  | fuel + 1, i, n, s =>
    let s1 := graphStep env i n s
    if s1.task_complete then .done s1 (i + 1)
    else
      match parseAgent s1.next_agent with
      | some n1 => runLoop env fuel (i + 1) n1 s1
      | none => .badRoute

def RECURSION_LIMIT : Nat := 50

def invokeGraph (env : Nat → String × Bool) : RunResult :=
  runLoop env RECURSION_LIMIT 0 .supervisor initialGState

structure ProcessResult where
  status : String
  errorSurfaced : Bool
  flags : Option Flags
deriving DecidableEq, Repr

/-- `process_onboarding`: on a normal completion of the graph the result
carries `status` completed/in-progress and the final flags; any exception
(in particular `GraphRecursionError` from the step ceiling) is caught and
returned as a result with `status = STATUS_ERROR` and an `error` entry
(`errorSurfaced`). -/
def process_onboarding (env : Nat → String × Bool) : ProcessResult :=
  match invokeGraph env with
  | .done s _ =>
      { status := if s.task_complete then STATUS_COMPLETED else STATUS_IN_PROGRESS,
        errorSurfaced := false, flags := some s.flags }
  | _ => { status := STATUS_ERROR, errorSurfaced := true, flags := none }

/-- The unbounded trajectory of the same dynamics, used to speak about runs
independently of the fuel: point `i` is the node/state pair about to execute
superstep `i`, or the halted outcome. -/
inductive TrajPoint where
  | running (n : Node) (s : GState)
  | haltedDone (s : GState)
  | haltedBad
deriving DecidableEq, Repr

def traj (env : Nat → String × Bool) : Nat → TrajPoint
  | 0 => .running .supervisor initialGState
  | i + 1 =>
    match traj env i with
    | .running n s =>
      let s1 := graphStep env i n s
      if s1.task_complete then .haltedDone s1
      else
        match parseAgent s1.next_agent with
        | some n1 => .running n1 s1
        | none => .haltedBad
    | p => p

/-- Environment in which every stage processor fails and the LLM returns the
empty string: the flag vector never reaches all-complete. -/
def envAllFail : Nat → String × Bool := fun _ => ("", false)

/-! ## Validation subgraph (`subgraphs/validation_subgraph.py`)

A linear pipeline `validate_name -> validate_email -> validate_phone ->
check_complete` over a `ValidationState`.  Each node returns partial updates
that overwrite the corresponding keys; since the pipeline is linear, the
composition is modelled by functions from state to state.  Missing input
fields are `none`; Python's falsiness test `not name` is `none` or the empty
string. -/

structure ValidationState where
  name : Option String
  email : Option String
  phone : Option String
  name_valid : Bool
  email_valid : Bool
  phone_valid : Bool
  validation_complete : Bool
  errors : List String
deriving DecidableEq, Repr

def isFalsyStr : Option String → Bool
  | none => true
  | some s => s = ""

def validate_name (s : ValidationState) : ValidationState :=
  if isFalsyStr s.name then
    { s with name_valid := false, errors := s.errors ++ ["Name is required"] }
  else
    let nm := pyStrip ((s.name).getD "")
    if nm.length < 2 then
      { s with name_valid := false, errors := s.errors ++ ["Name must be at least 2 characters"] }
    else if nm.length > 100 then
      { s with name_valid := false, errors := s.errors ++ ["Name must be less than 100 characters"] }
    else { s with name_valid := true }

def isLocalChar (c : Char) : Bool :=
  c.isAlpha || c.isDigit || c = '.' || c = '_' || c = '%' || c = '+' || c = '-'

def isDomainChar (c : Char) : Bool :=
  c.isAlpha || c.isDigit || c = '.' || c = '-'

/-- The part after the last dot of the domain must be two or more letters,
and the part before it nonempty over `[a-zA-Z0-9.-]`.  Because the regex's
final group `[a-zA-Z]{2,}` cannot contain a dot, any successful split must be
at the last dot, so this decides the regex sublanguage
`[a-zA-Z0-9.-]+\.[a-zA-Z]{2,}` exactly. -/
def domainMatch (ds : List Char) : Bool :=
  let tld := ds.reverse.takeWhile (fun c => c ≠ '.')
  match ds.reverse.drop tld.length with
  | '.' :: restRev =>
      let p := restRev.reverse
      !p.isEmpty && p.all isDomainChar && tld.all Char.isAlpha && decide (2 ≤ tld.length)
  | _ => false

/-- Decides the anchored regex
`^[a-zA-Z0-9._%+-]+@[a-zA-Z0-9.-]+\.[a-zA-Z]{2,}$` of `validate_email`.
Neither character class contains `@`, so a match requires the string to split
around a single `@`. -/
def emailMatch (s : String) : Bool :=
  match s.data.splitOn '@' with
  | [localPart, domainPart] =>
      !localPart.isEmpty && localPart.all isLocalChar && domainMatch domainPart
  | _ => false

def validate_email (s : ValidationState) : ValidationState :=
  if isFalsyStr s.email then
    { s with email_valid := false, errors := s.errors ++ ["Email is required"] }
  else
    let em := pyLower (pyStrip ((s.email).getD ""))
    if emailMatch em then { s with email_valid := true }
    else { s with email_valid := false, errors := s.errors ++ ["Invalid email format"] }

def validate_phone (s : ValidationState) : ValidationState :=
  if isFalsyStr s.phone then
    { s with phone_valid := false, errors := s.errors ++ ["Phone is required"] }
  else
    let digits := ((pyStrip ((s.phone).getD "")).data.filter Char.isDigit)
    if digits.length < 10 || digits.length > 15 then
      { s with phone_valid := false, errors := s.errors ++ ["Phone must be between 10 and 15 digits"] }
    else { s with phone_valid := true }

def check_validation_complete (s : ValidationState) : ValidationState :=
  { s with validation_complete := s.name_valid && s.email_valid && s.phone_valid }

/-- The signup input handed to `SignupAgent.process_signup` (the relevant
keys of `user_data`). -/
structure SignupInput where
  name : Option String
  email : Option String
  phone : Option String
deriving DecidableEq, Repr

/-- A fresh `ValidationState`: the given input fields, the validation flags
at their `False` defaults and an empty error list. -/
def soloV (n e p : Option String) : ValidationState :=
  { name := n, email := e, phone := p, name_valid := false, email_valid := false,
    phone_valid := false, validation_complete := false, errors := [] }

/-- `SignupAgent._validate_user_data` invokes the validation subgraph on
`{name, email, phone, errors: []}` (validation flags start at their
`False` defaults). -/
def runValidation (inp : SignupInput) : ValidationState :=
  check_validation_complete (validate_phone (validate_email (validate_name
    (soloV inp.name inp.email inp.phone))))

def nameErrors (n : Option String) : List String := (validate_name (soloV n none none)).errors

def emailErrors (e : Option String) : List String := (validate_email (soloV none e none)).errors

def phoneErrors (p : Option String) : List String := (validate_phone (soloV none none p)).errors

/-! ## API subgraph (`subgraphs/api_subgraph.py`)

`prepare_request -> call_api -> handle_retry -> (router)`, looping back to
`call_api` until success or the retry budget is exhausted.  The outcome of
the i-th HTTP attempt is supplied as `attempts i`; `call_external_api` maps
it to the state update of the `call_api` node.  Every failure — timeout,
connection error, an HTTP error status raised by `raise_for_status`
(a `RequestException`), or a response without a truthy `entity_id`
(`ValueError` caught by the blanket `except`) — produces `success = False`
plus an error message; only the message text differs. -/

inductive ApiAttempt where
  | ok (entity_id : Option String)
  | timeout
  | httpError (status : Nat)
  | connectionError
  | badResponse
deriving DecidableEq, Repr

structure APIState where
  success : Bool
  entity_id : Option String
  error_message : Option String
  retry_count : Nat
deriving DecidableEq, Repr

/-- State entering the subgraph from `SignupAgent._generate_entity_id`:
`retry_count = 0`, the other channels at their unset defaults. -/
def initialAPIState : APIState :=
  { success := false, entity_id := none, error_message := none, retry_count := 0 }

def attemptSucceeds : ApiAttempt → Bool
  | .ok (some e) => !(e = "")
  | _ => false

def call_external_api (att : ApiAttempt) (s : APIState) : APIState :=
  match att with
  | .ok (some e) =>
      if e = "" then
        { s with success := false, entity_id := none,
                 error_message := some "No entity_id in API response" }
      else { s with success := true, entity_id := some e, error_message := none }
  | .ok none =>
      { s with success := false, entity_id := none,
               error_message := some "No entity_id in API response" }
  | .timeout =>
      { s with success := false, entity_id := none,
               error_message := some "API request timeout - please try again" }
  | .httpError code =>
      { s with success := false, entity_id := none,
               error_message := some ("API connection error: HTTP error " ++ toString code) }
  | .connectionError =>
      { s with success := false, entity_id := none,
               error_message := some "API connection error: connection refused" }
  | .badResponse =>
      { s with success := false, entity_id := none,
               error_message := some "Expecting value: invalid JSON" }

def API_MAX_RETRIES : Nat := 3

def handle_api_retry (s : APIState) : APIState :=
  if s.success then s
  else if s.retry_count < API_MAX_RETRIES then { s with retry_count := s.retry_count + 1 }
  else s

def API_END : String := "__end__"

def apiRouter (s : APIState) : String :=
  if s.success then API_END
  else if s.retry_count < API_MAX_RETRIES then "call_api"
  else API_END

/-- The `call_api -> handle_retry -> router` loop; returns the final state
and the number of HTTP attempts made.  `retry_count` strictly increases on
every routed-back failure and the router stops at `API_MAX_RETRIES`, so fuel
`API_MAX_RETRIES + 1` is never exhausted from `initialAPIState`. -/
def runApiFrom (attempts : Nat → ApiAttempt) : Nat → Nat → APIState → APIState × Nat
  | 0, i, s => (s, i)
  | fuel + 1, i, s =>
    let s1 := handle_api_retry (call_external_api (attempts i) s)
    if apiRouter s1 = "call_api" then runApiFrom attempts fuel (i + 1) s1
    else (s1, i + 1)

def runApi (attempts : Nat → ApiAttempt) : APIState × Nat :=
  runApiFrom attempts (API_MAX_RETRIES + 1) 0 initialAPIState

/-! ## Signup agent (`signup_agent.py`) -/

structure SignupResult where
  success : Bool
  status : String
  errors : List String
  error : Option String
  entity_id : Option String
deriving DecidableEq, Repr

/-- `SignupAgent.process_signup`: validate; on validation failure return the
error batch with no external call; otherwise run the API subgraph and report
its outcome.  The second component counts external entity-creation attempts
performed. -/
def process_signup (inp : SignupInput) (attempts : Nat → ApiAttempt) : SignupResult × Nat :=
  let v := runValidation inp
  if v.validation_complete = false then
    ({ success := false, status := "validation_failed", errors := v.errors,
       error := none, entity_id := none }, 0)
  else
    let ar := runApi attempts
    if ar.1.success then
      ({ success := true, status := "completed", errors := [],
         error := none, entity_id := ar.1.entity_id }, ar.2)
    else
      ({ success := false, status := "api_failed", errors := [],
         error := ar.1.error_message, entity_id := none }, ar.2)

/-- Valid signup data used as a concrete re-invocation input. -/
def janeInput : SignupInput :=
  { name := some "Jane Doe", email := some "jane@example.com", phone := some "1234567890" }

/-! ## String-valued dictionaries

The state dicts handled by `migrate_state`, `save_state` and `load_state`
are modelled as association lists with Python dict semantics: lookup of the
unique binding, in-place overwrite of an existing key, append of a new one. -/

abbrev Dict := List (String × String)

def dget (d : Dict) (k : String) : Option String :=
  match d with
  | [] => none
  | (k1, v1) :: t => if k1 = k then some v1 else dget t k

def dcontains (d : Dict) (k : String) : Bool :=
  (dget d k).isSome

def dset (d : Dict) (k v : String) : Dict :=
  match d with
  | [] => [(k, v)]
  | (k1, v1) :: t => if k1 = k then (k, v) :: t else (k1, v1) :: dset t k v

/-! ## Schema migration (`agents/state/graph_state.py`, `migrate_state`) -/

/-- `migrate_state`: read `state_version` defaulting to `"1.0"` (legacy
records); for version `"1.0"` stamp the tag if it was missing and return the
record; any other version falls through unchanged (no later migrations are
defined). -/
def migrate_state (d : Dict) : Dict :=
  let version := (dget d "state_version").getD "1.0"
  if version = "1.0" then
    if dcontains d "state_version" then d else dset d "state_version" "1.0"
  else d

/-- The migration body for the oldest known version `"1.0"` applied
unconditionally, written from the spec's words ("unknown/missing version
defaults to the oldest known version") for comparison with
`migrate_state`. -/
def oldestVersionMigration (d : Dict) : Dict :=
  if dcontains d "state_version" then d else dset d "state_version" "1.0"

/-! ## State manager (`state_manager.py`)

Timestamps are passed in as the string `now`; the durable store, the cache
and the pub/sub channel are external collaborators, so their outcomes are
parameters.  `save_state` returns the success flag together with the ordered
trace of attempted side effects. -/

inductive SaveAction where
  | dbWrite (sid : String) (st : Dict)
  | cacheWrite (sid : String) (st : Dict)
  | publish (sid : String)
deriving DecidableEq, Repr

structure SaveEnv where
  dbOk : Bool
  cacheEnabled : Bool
  pubsubEnabled : Bool
  cacheOk : Bool
  pubOk : Bool
deriving DecidableEq, Repr

/-- The stamping prologue of `save_state`: default `state_version`, default
`created_at`, always refresh `updated_at`. -/
def stampState (state : Dict) (now : String) : Dict :=
  let s1 := if dcontains state "state_version" then state else dset state "state_version" "1.0"
  let s2 := if dcontains s1 "created_at" then s1 else dset s1 "created_at" now
  dset s2 "updated_at" now

/-- `StateManager.save_state`: stamp, write the durable store first (the two
upserts run in one transaction; a failure is caught and yields `False`), then
— only after a successful durable write — attempt the cache write and the
pub/sub notification, each in its own `try/except` that logs and swallows any
failure (`cacheOk`/`pubOk` therefore influence nothing).  Returns the success
flag and the trace of attempted effects. -/
def save_state (env : SaveEnv) (sid : String) (state : Dict) (now : String) :
    Bool × List SaveAction :=
  let st := stampState state now
  if env.dbOk then
    (true,
      [SaveAction.dbWrite sid st]
        ++ (if env.cacheEnabled then [SaveAction.cacheWrite sid st] else [])
        ++ (if env.pubsubEnabled then [SaveAction.publish sid] else []))
  else (false, [SaveAction.dbWrite sid st])

inductive CacheRead where
  | raised
  | miss
  | hit (d : Dict)
deriving DecidableEq, Repr

inductive DbRead where
  | found (raw : Dict)
  | missing
  | dbError
deriving DecidableEq, Repr

structure LoadEnv where
  cacheEnabled : Bool
  cacheRead : CacheRead
  dbRead : DbRead
deriving DecidableEq, Repr

/-- The fresh default session `load_state` synthesizes when no record is
found — and, identically, when the durable read raises. -/
def defaultState (sid now : String) : Dict :=
  [("state_version", "1.0"), ("session_id", sid), ("current_step", "welcome"),
   ("status", "active"), ("created_at", now), ("updated_at", now)]

/-- `StateManager.load_state`: cache first when enabled (a raised cache read
is logged and falls through, a hit is migrated and returned); then the
durable store — a found record is migrated, a missing record yields the
default state, and a raised read is caught and yields the same default
state. -/
def load_state (env : LoadEnv) (sid : String) (now : String) : Dict :=
  match (if env.cacheEnabled then some env.cacheRead else none) with
  | some (CacheRead.hit d) => migrate_state d
  | _ =>
    match env.dbRead with
    | .found raw => migrate_state raw
    | .missing => defaultState sid now
    | .dbError => defaultState sid now

/-! ## Entity features (`state_manager.py`,
`save_entity_feature` / `get_entity_features`)

One `entity_features` row per session; the database cell for a session is
`Option FeatureRow` (`none` = no row yet).  A failed transaction leaves the
row unchanged (the write is atomic), modelled by the `Bool` paired with each
operation.  Row-level `created_at`/`updated_at` bookkeeping is elided;
per-feature completion timestamps are kept (`now : Nat` per call). -/

structure FeatureRow where
  entity_id : Option String
  user_email : Option String
  user_phone : Option String
  organization_name : Option String
  signup_completed : Bool
  kyc_completed : Bool
  business_details_completed : Bool
  bank_details_completed : Bool
  onboarding_completed : Bool
  signup_completed_at : Option Nat
  kyc_completed_at : Option Nat
  business_details_completed_at : Option Nat
  bank_details_completed_at : Option Nat
  onboarding_completed_at : Option Nat
  kyc_data : Option Dict
  business_data : Option Dict
  bank_data : Option Dict
deriving DecidableEq, Repr

inductive Feature where
  | signup
  | kyc
  | business_details
  | bank_details
deriving DecidableEq, Repr

structure FeatureArgs where
  entity_id : Option String := none
  user_email : Option String := none
  user_phone : Option String := none
  organization_name : Option String := none
  feature : Option Feature := none
  feature_data : Option Dict := none
  now : Nat := 0
deriving Repr

/-- Python truthiness of an optional string argument (`if entity_id:`). -/
def truthyS : Option String → Bool
  | none => false
  | some s => !(s = "")

/-- Python truthiness of `feature_data` (`if data_col and feature_data:`):
non-`None` and a nonempty dict. -/
def truthyD : Option Dict → Bool
  | none => false
  | some fd => !fd.isEmpty

/-- The freshly inserted row for a session without one: the provided
identity fields, all completion columns at their `FALSE`/`NULL` defaults. -/
def freshRow (a : FeatureArgs) : FeatureRow :=
  { entity_id := a.entity_id, user_email := a.user_email, user_phone := a.user_phone,
    organization_name := a.organization_name,
    signup_completed := false, kyc_completed := false,
    business_details_completed := false, bank_details_completed := false,
    onboarding_completed := false,
    signup_completed_at := none, kyc_completed_at := none,
    business_details_completed_at := none, bank_details_completed_at := none,
    onboarding_completed_at := none,
    kyc_data := none, business_data := none, bank_data := none }

/-- The dynamic `UPDATE` of the identity columns on an existing row: each
field is overwritten only when the argument is truthy. -/
def updateInfo (a : FeatureArgs) (r : FeatureRow) : FeatureRow :=
  let r1 := if truthyS a.entity_id then { r with entity_id := a.entity_id } else r
  let r2 := if truthyS a.user_email then { r1 with user_email := a.user_email } else r1
  let r3 := if truthyS a.user_phone then { r2 with user_phone := a.user_phone } else r2
  if truthyS a.organization_name then { r3 with organization_name := a.organization_name } else r3

/-- The per-feature `UPDATE ... SET <flag> = TRUE, <timestamp> = now` (with
the data column written only for features that have one and truthy data;
signup has no data column). -/
def applyFeature (a : FeatureArgs) (r : FeatureRow) : FeatureRow :=
  match a.feature with
  | none => r
  | some .signup =>
      { r with signup_completed := true, signup_completed_at := some a.now }
  | some .kyc =>
      let r1 := { r with kyc_completed := true, kyc_completed_at := some a.now }
      if truthyD a.feature_data then { r1 with kyc_data := a.feature_data } else r1
  | some .business_details =>
      let r1 := { r with business_details_completed := true,
                         business_details_completed_at := some a.now }
      if truthyD a.feature_data then { r1 with business_data := a.feature_data } else r1
  | some .bank_details =>
      let r1 := { r with bank_details_completed := true,
                         bank_details_completed_at := some a.now }
      if truthyD a.feature_data then { r1 with bank_data := a.feature_data } else r1

/-- `StateManager.save_entity_feature` in one transaction: insert or update
the row, apply the feature completion if any, then re-read the four flags
and set `onboarding_completed` when all four are true. -/
def save_entity_feature (a : FeatureArgs) (db : Option FeatureRow) : Option FeatureRow :=
  let row :=
    match db with
    | none => freshRow a
    | some r => updateInfo a r
  let row2 := applyFeature a row
  let row3 :=
    if row2.signup_completed && row2.kyc_completed &&
        row2.business_details_completed && row2.bank_details_completed then
      { row2 with onboarding_completed := true, onboarding_completed_at := some a.now }
    else row2
  some row3

/-- Completion status as reported by `get_entity_features`: a missing row
reads as all-false. -/
def getSignupFlag : Option FeatureRow → Bool
  | none => false
  | some r => r.signup_completed

def getKycFlag : Option FeatureRow → Bool
  | none => false
  | some r => r.kyc_completed

def getBusinessFlag : Option FeatureRow → Bool
  | none => false
  | some r => r.business_details_completed

def getBankFlag : Option FeatureRow → Bool
  | none => false
  | some r => r.bank_details_completed

def getOnboardingFlag : Option FeatureRow → Bool
  | none => false
  | some r => r.onboarding_completed

/-- A session's entity-feature history: each operation is a
`save_entity_feature` call together with whether its transaction committed
(an aborted transaction leaves the row unchanged). -/
def applyFeatureOps (ops : List (FeatureArgs × Bool)) : Option FeatureRow :=
  ops.foldl (fun db op => if op.2 then save_entity_feature op.1 db else db) none

/-- A graph state in which the signup stage is already completed, used for
re-invocation scenarios. -/
def stateSignupDone : GState :=
  { flags := ⟨true, false, false, false⟩, next_agent := AGENT_SIGNUP, task_complete := false }

/-- An entity-features row with only the bank stage completed. -/
def rowBankDone : FeatureRow :=
  { freshRow {} with bank_details_completed := true, bank_details_completed_at := some 3 }

/-! # Theorems -/

/-- Helper: when the lowered advisory text contains no agent keyword, the
decision chain degenerates to the pure flag order. -/
theorem supervisorAgent_of_keywordFree (f : Flags) (d : String) (h : keywordFree d = true) :
    supervisorAgent f d = firstIncompleteAgent f := by
  simp only [keywordFree, Bool.and_eq_true, Bool.not_eq_true'] at h
  obtain ⟨⟨⟨⟨h1, h2⟩, h3⟩, h4⟩, h5⟩ := h
  simp only [supervisorAgent, supervisorNextAgent, firstIncompleteAgent, h1, h2, h3, h4, h5,
    Bool.false_or]
  obtain ⟨s, c, k, b⟩ := f
  cases s <;> cases c <;> cases k <;> cases b <;> simp

/-- C1 counterexample: with all four completion flags true, an advisory
output `""` routes to `complete` while the advisory output `"signup"` routes
to `signup` — the two runs differ only in the advisory text yet return
different agents. -/
theorem supervisor_llm_override_cex :
    supervisorAgent ⟨true, true, true, true⟩ "" = AGENT_COMPLETE
    ∧ supervisorAgent ⟨true, true, true, true⟩ "signup" = AGENT_SIGNUP
    ∧ supervisorAgent ⟨true, true, true, true⟩ ""
        ≠ supervisorAgent ⟨true, true, true, true⟩ "signup" := by
  refine ⟨rfl, rfl, ?_⟩
  decide

/-- C1 (amended): the supervisor's routing decision is a function of the
four completion flags alone provided neither advisory LLM output contains an
agent keyword; two such runs differing only in the advisory text return the
same `next_agent`. -/
theorem supervisor_determinism_keyword_free (f : Flags) (d1 d2 : String)
    (h1 : keywordFree d1 = true) (h2 : keywordFree d2 = true) :
    supervisorAgent f d1 = supervisorAgent f d2 := by
  rw [supervisorAgent_of_keywordFree f d1 h1, supervisorAgent_of_keywordFree f d2 h2]

/-- Witness for C1 (amended) at concrete keyword-free advisory outputs. -/
theorem supervisor_determinism_keyword_free_witness :
    keywordFree "" = true ∧ keywordFree "please proceed" = true
    ∧ supervisorAgent ⟨false, true, false, true⟩ ""
        = supervisorAgent ⟨false, true, false, true⟩ "please proceed" :=
  ⟨by decide, by decide,
    supervisor_determinism_keyword_free ⟨false, true, false, true⟩ "" "please proceed"
      (by decide) (by decide)⟩

/-- C2: with a keyword-free advisory output (e.g. the empty string) the
supervisor picks exactly the first incomplete stage in the order signup,
company, kyc, bank, picks `complete` when all four are complete, and a stage
is picked only when it is itself incomplete and every earlier stage is
complete (no skipping, no re-entry). -/
theorem supervisor_picks_first_incomplete (d : String) (s c k b : Bool)
    (h : keywordFree d = true) :
    supervisorAgent ⟨s, c, k, b⟩ d = firstIncompleteAgent ⟨s, c, k, b⟩
    ∧ (supervisorAgent ⟨s, c, k, b⟩ d = AGENT_COMPLETE ↔ (s && c && k && b) = true)
    ∧ (supervisorAgent ⟨s, c, k, b⟩ d = AGENT_SIGNUP ↔ s = false)
    ∧ (supervisorAgent ⟨s, c, k, b⟩ d = AGENT_COMPANY ↔ (s = true ∧ c = false))
    ∧ (supervisorAgent ⟨s, c, k, b⟩ d = AGENT_KYC ↔ (s = true ∧ c = true ∧ k = false))
    ∧ (supervisorAgent ⟨s, c, k, b⟩ d = AGENT_BANK
        ↔ (s = true ∧ c = true ∧ k = true ∧ b = false)) := by
  rw [supervisorAgent_of_keywordFree ⟨s, c, k, b⟩ d h]
  revert s c k b
  decide

/-- Witness for C2 at the empty advisory output. -/
theorem supervisor_picks_first_incomplete_witness :
    keywordFree "" = true
    ∧ supervisorAgent ⟨true, false, true, false⟩ ""
        = firstIncompleteAgent ⟨true, false, true, false⟩ :=
  ⟨by decide, (supervisor_picks_first_incomplete "" true false true false (by decide)).1⟩

/-- Helper: setting a key makes it readable. -/
theorem dget_dset_self (d : Dict) (k v : String) : dget (dset d k v) k = some v := by
  induction d with
  | nil => simp [dset, dget]
  | cons p t ih =>
    obtain ⟨k1, v1⟩ := p
    by_cases hk : k1 = k
    · simp [dset, dget, hk]
    · simp [dset, dget, hk, ih]

/-- Helper: `migrate_state` behaves as the oldest-version migration on every
record. -/
theorem migrate_eq_oldest (d : Dict) : migrate_state d = oldestVersionMigration d := by
  unfold migrate_state oldestVersionMigration dcontains
  cases hv : dget d "state_version" with
  | none => simp
  | some v =>
    by_cases hvv : v = "1.0" <;> simp [hvv]

/-- Helper: the oldest-version migration is idempotent. -/
theorem oldest_idem (d : Dict) :
    oldestVersionMigration (oldestVersionMigration d) = oldestVersionMigration d := by
  unfold oldestVersionMigration
  by_cases hc : dcontains d "state_version" = true
  · simp [hc]
  · rw [if_neg hc]
    have hset : dcontains (dset d "state_version" "1.0") "state_version" = true := by
      simp [dcontains, dget_dset_self]
    rw [if_pos hset]

/-- C10: `migrate_state` is idempotent, is a no-op on records already
tagged with the current version `"1.0"`, and treats every record — in
particular one with an unknown or missing `state_version` — exactly as the
migration for the oldest known version would. -/
theorem migrate_state_contract :
    (∀ d : Dict, migrate_state (migrate_state d) = migrate_state d)
    ∧ (∀ d : Dict, dget d "state_version" = some "1.0" → migrate_state d = d)
    ∧ (∀ d : Dict, migrate_state d = oldestVersionMigration d) := by
  refine ⟨?_, ?_, migrate_eq_oldest⟩
  · intro d
    rw [migrate_eq_oldest, migrate_eq_oldest, oldest_idem]
  · intro d h
    simp [migrate_state, dcontains, h]

/-- Witness for C10 on a record already at the current version. -/
theorem migrate_state_contract_witness :
    dget [("state_version", "1.0")] "state_version" = some "1.0"
    ∧ migrate_state [("state_version", "1.0")] = [("state_version", "1.0")] :=
  ⟨by decide, migrate_state_contract.2.1 [("state_version", "1.0")] (by decide)⟩

/-- C5: `save_state` returns exactly the durable-store outcome, is
unaffected by the cache-write and notification outcomes, attempts the
durable write first, and attempts no cache write or notification when the
durable write fails. -/
theorem save_state_durable_contract (env : SaveEnv) (sid : String) (state : Dict)
    (now : String) :
    (save_state env sid state now).1 = env.dbOk
    ∧ (∀ c p : Bool,
        save_state { env with cacheOk := c, pubOk := p } sid state now
          = save_state env sid state now)
    ∧ (save_state env sid state now).2.head? = some (SaveAction.dbWrite sid (stampState state now))
    ∧ (env.dbOk = false →
        (save_state env sid state now).2 = [SaveAction.dbWrite sid (stampState state now)]) := by
  obtain ⟨dbOk, ce, pe, co, po⟩ := env
  cases dbOk <;> simp [save_state]

/-- Witness for C5 with a failing durable store. -/
theorem save_state_durable_contract_witness :
    (save_state ⟨false, true, true, true, true⟩ "s1" [] "t0").2
        = [SaveAction.dbWrite "s1" (stampState [] "t0")]
    ∧ (save_state ⟨false, true, true, true, true⟩ "s1" [] "t0").1 = false :=
  ⟨(save_state_durable_contract ⟨false, true, true, true, true⟩ "s1" [] "t0").2.2.2 rfl,
   (save_state_durable_contract ⟨false, true, true, true, true⟩ "s1" [] "t0").1⟩

/-- C6 counterexample: when the durable read raises, `load_state` returns
exactly the same fresh default session as when the record is missing — the
caller cannot distinguish a persistence failure from a missing record. -/
theorem load_state_db_error_indistinguishable :
    load_state ⟨false, CacheRead.miss, DbRead.dbError⟩ "s1" "t0"
      = load_state ⟨false, CacheRead.miss, DbRead.missing⟩ "s1" "t0"
    ∧ load_state ⟨false, CacheRead.miss, DbRead.dbError⟩ "s1" "t0" = defaultState "s1" "t0" :=
  ⟨rfl, rfl⟩

/-- C6 (amended): a durable-store write failure is surfaced — `save_state`
returns `false` — but a durable read failure is not: `load_state` swallows
it and returns the fresh default session, identical to the missing-record
result. -/
theorem durable_failure_surfacing (env : SaveEnv) (lenv : LoadEnv) (sid now : String)
    (st : Dict) (hdb : env.dbOk = false) (hc : lenv.cacheEnabled = false)
    (hr : lenv.dbRead = DbRead.dbError) :
    (save_state env sid st now).1 = false
    ∧ load_state lenv sid now = defaultState sid now
    ∧ load_state lenv sid now = load_state { lenv with dbRead := DbRead.missing } sid now := by
  obtain ⟨dbOk, ce, pe, co, po⟩ := env
  obtain ⟨cEn, cr, dr⟩ := lenv
  simp only at hdb hc hr
  subst hdb hc hr
  simp [save_state, load_state]

/-- Witness for C6 (amended) at a concrete failing environment. -/
theorem durable_failure_surfacing_witness :
    (save_state ⟨false, false, false, true, true⟩ "s9" [("a", "b")] "t1").1 = false
    ∧ load_state ⟨false, CacheRead.miss, DbRead.dbError⟩ "s9" "t1" = defaultState "s9" "t1" :=
  ⟨(durable_failure_surfacing ⟨false, false, false, true, true⟩
      ⟨false, CacheRead.miss, DbRead.dbError⟩ "s9" "t1" [("a", "b")] rfl rfl rfl).1,
   (durable_failure_surfacing ⟨false, false, false, true, true⟩
      ⟨false, CacheRead.miss, DbRead.dbError⟩ "s9" "t1" [("a", "b")] rfl rfl rfl).2.1⟩

/-- Helper: `validate_name` appends exactly its own field's error batch and
leaves the other input fields untouched. -/
theorem validate_name_spec (s : ValidationState) :
    (validate_name s).errors = s.errors ++ nameErrors s.name
    ∧ (validate_name s).email = s.email ∧ (validate_name s).phone = s.phone := by
  simp only [validate_name, nameErrors, soloV]
  split_ifs <;> simp

/-- Helper: `validate_email` appends exactly its own field's error batch and
leaves the phone field untouched. -/
theorem validate_email_spec (s : ValidationState) :
    (validate_email s).errors = s.errors ++ emailErrors s.email
    ∧ (validate_email s).phone = s.phone := by
  simp only [validate_email, emailErrors, soloV]
  split_ifs <;> simp

/-- Helper: `validate_phone` appends exactly its own field's error batch. -/
theorem validate_phone_spec (s : ValidationState) :
    (validate_phone s).errors = s.errors ++ phoneErrors s.phone := by
  simp only [validate_phone, phoneErrors, soloV]
  split_ifs <;> simp

/-- C4: on the signup input `name "A"`, `email "bad-email"`, `phone "123"`,
`process_signup` fails validation with exactly the three per-field messages
in pipeline order and attempts no external entity-creation call (whatever
the external service would have answered); in general the pipeline's error
list is the concatenation of the three independent per-field batches — all
fields are evaluated, with no short-circuiting. -/
theorem signup_validation_batch (attempts : Nat → ApiAttempt) :
    process_signup ⟨some "A", some "bad-email", some "123"⟩ attempts
      = ({ success := false, status := "validation_failed",
           errors := ["Name must be at least 2 characters", "Invalid email format",
                      "Phone must be between 10 and 15 digits"],
           error := none, entity_id := none }, 0)
    ∧ ∀ inp : SignupInput,
        (runValidation inp).errors
          = nameErrors inp.name ++ emailErrors inp.email ++ phoneErrors inp.phone := by
  constructor
  · rfl
  · intro inp
    have hn := validate_name_spec (soloV inp.name inp.email inp.phone)
    have he := validate_email_spec (validate_name (soloV inp.name inp.email inp.phone))
    have hp := validate_phone_spec
      (validate_email (validate_name (soloV inp.name inp.email inp.phone)))
    simp only [soloV] at hn he hp
    simp only [runValidation, check_validation_complete, hp, he.1, he.2, hn.1, hn.2.1, hn.2.2,
      soloV, List.nil_append, List.append_assoc]

/-- Helper: every failed attempt kind yields `success = False`, keeps the
retry counter, and carries an error message. -/
theorem call_fail_fields (att : ApiAttempt) (s : APIState)
    (h : attemptSucceeds att = false) :
    (call_external_api att s).success = false
    ∧ (call_external_api att s).retry_count = s.retry_count
    ∧ (call_external_api att s).error_message.isSome = true := by
  cases att with
  | ok eid =>
    cases eid with
    | none => simp [call_external_api]
    | some e =>
      simp only [attemptSucceeds, Bool.not_eq_false'] at h
      have he : e = "" := by simpa using h
      subst he
      simp [call_external_api]
  | timeout => simp [call_external_api]
  | httpError code => simp [call_external_api]
  | connectionError => simp [call_external_api]
  | badResponse => simp [call_external_api]

/-- Helper: one failed loop iteration below the retry cap increments the
counter and stays unsuccessful. -/
theorem api_fail_step (att : ApiAttempt) (s : APIState) (h : attemptSucceeds att = false)
    (hlt : s.retry_count < API_MAX_RETRIES) :
    ∃ s1 : APIState, handle_api_retry (call_external_api att s) = s1
      ∧ s1.success = false ∧ s1.retry_count = s.retry_count + 1 := by
  obtain ⟨hs, hr, _⟩ := call_fail_fields att s h
  refine ⟨handle_api_retry (call_external_api att s), rfl, ?_, ?_⟩
  · simp [handle_api_retry, hs, hr, hlt]
  · simp [handle_api_retry, hs, hr, hlt]

/-- Helper: when every attempt fails, the loop runs the full retry budget:
starting below the cap it makes exactly `fuel - 1` further attempts and ends
unsuccessful. -/
theorem runApiFrom_all_fail (attempts : Nat → ApiAttempt)
    (hfail : ∀ i, attemptSucceeds (attempts i) = false) :
    ∀ fuel i s, s.retry_count ≤ 2 → s.retry_count + fuel = 4 →
      (runApiFrom attempts fuel i s).1.success = false
      ∧ (runApiFrom attempts fuel i s).2 = i + (fuel - 1) := by
  intro fuel
  induction fuel with
  | zero => intro i s h2 h4; exact absurd h4 (by omega)
  | succ fuel ih =>
    intro i s h2 h4
    have hlt : s.retry_count < API_MAX_RETRIES := by
      simp only [API_MAX_RETRIES]; omega
    obtain ⟨s1, heq, hs1, hrc1⟩ := api_fail_step (attempts i) s (hfail i) hlt
    simp only [runApiFrom, heq]
    by_cases hc : s.retry_count + 1 < 3
    · have hroute : apiRouter s1 = "call_api" := by
        simp [apiRouter, hs1, hrc1, hc, API_MAX_RETRIES]
      rw [if_pos hroute]
      have hrec := ih (i + 1) s1 (by omega) (by omega)
      exact ⟨hrec.1, by rw [hrec.2]; omega⟩
    · have hroute : apiRouter s1 = API_END := by
        simp [apiRouter, hs1, hrc1, API_MAX_RETRIES, hc]
      rw [if_neg (by rw [hroute]; decide)]
      refine ⟨hs1, ?_⟩
      show i + 1 = i + (fuel + 1 - 1)
      omega

/-- C7 counterexample: a non-transient failure is retried — after an HTTP
404 error response (a `raise_for_status` failure) and likewise after a
response missing `entity_id`, the router loops back to `call_api`, and a run
whose every attempt returns HTTP 404 performs all 3 attempts instead of
propagating the first failure immediately. -/
theorem api_nontransient_retried_cex :
    apiRouter (handle_api_retry (call_external_api (ApiAttempt.httpError 404) initialAPIState))
      = "call_api"
    ∧ apiRouter (handle_api_retry (call_external_api (ApiAttempt.ok none) initialAPIState))
      = "call_api"
    ∧ (runApi (fun _ => ApiAttempt.httpError 404)).2 = 3
    ∧ (runApi (fun _ => ApiAttempt.httpError 404)).1.success = false := by
  refine ⟨rfl, rfl, rfl, rfl⟩

/-- C7 (amended): the retry decision never depends on the failure kind —
any two failed attempts (timeout, connection error, HTTP error status,
missing `entity_id`) produce the same routing decision and the same retry
counter, and a run whose attempts all fail performs exactly 3 attempts
before surfacing the failure, whatever the failure kinds. -/
theorem api_retry_uniform (k k1 : ApiAttempt) (s : APIState)
    (hk : attemptSucceeds k = false) (hk1 : attemptSucceeds k1 = false) :
    apiRouter (handle_api_retry (call_external_api k s))
      = apiRouter (handle_api_retry (call_external_api k1 s))
    ∧ (handle_api_retry (call_external_api k s)).retry_count
      = (handle_api_retry (call_external_api k1 s)).retry_count
    ∧ ∀ attempts : Nat → ApiAttempt,
        (∀ i, attemptSucceeds (attempts i) = false) →
          (runApi attempts).1.success = false ∧ (runApi attempts).2 = 3 := by
  obtain ⟨hs, hr, _⟩ := call_fail_fields k s hk
  obtain ⟨hs1, hr1, _⟩ := call_fail_fields k1 s hk1
  refine ⟨?_, ?_, ?_⟩
  · simp only [handle_api_retry, apiRouter, hs, hs1, hr, hr1, Bool.false_eq_true, if_false]
    split_ifs <;> first | rfl | (exfalso; omega)
  · simp only [handle_api_retry, hs, hs1, hr, hr1, Bool.false_eq_true, if_false]
    split_ifs <;> simp [hr, hr1]
  · intro attempts hfa
    have h := runApiFrom_all_fail attempts hfa 4 0 initialAPIState (by decide) (by decide)
    exact ⟨h.1, h.2⟩

/-- Witness for C7 (amended): a timeout and an HTTP 400 failure route
identically from the initial state. -/
theorem api_retry_uniform_witness :
    attemptSucceeds ApiAttempt.timeout = false
    ∧ attemptSucceeds (ApiAttempt.httpError 400) = false
    ∧ apiRouter (handle_api_retry (call_external_api ApiAttempt.timeout initialAPIState))
        = apiRouter (handle_api_retry (call_external_api (ApiAttempt.httpError 400)
            initialAPIState)) :=
  ⟨by decide, by decide,
    (api_retry_uniform ApiAttempt.timeout (ApiAttempt.httpError 400) initialAPIState
      (by decide) (by decide)).1⟩

/-- Helper: the identity-column update never touches the completion
columns. -/
theorem updateInfo_flags (a : FeatureArgs) (r : FeatureRow) :
    (updateInfo a r).signup_completed = r.signup_completed
    ∧ (updateInfo a r).kyc_completed = r.kyc_completed
    ∧ (updateInfo a r).business_details_completed = r.business_details_completed
    ∧ (updateInfo a r).bank_details_completed = r.bank_details_completed
    ∧ (updateInfo a r).onboarding_completed = r.onboarding_completed := by
  simp only [updateInfo]
  split_ifs <;> simp

/-- Helper: one committed `save_entity_feature` preserves the invariant
`onboarding_completed = (all four stage flags)`. -/
theorem save_entity_feature_inv (a : FeatureArgs) (db : Option FeatureRow)
    (h : getOnboardingFlag db
        = (getSignupFlag db && getKycFlag db && getBusinessFlag db && getBankFlag db)) :
    getOnboardingFlag (save_entity_feature a db)
      = (getSignupFlag (save_entity_feature a db) && getKycFlag (save_entity_feature a db)
          && getBusinessFlag (save_entity_feature a db)
          && getBankFlag (save_entity_feature a db)) := by
  cases db with
  | none =>
    cases hf : a.feature with
    | none =>
      simp [save_entity_feature, applyFeature, hf, freshRow, getOnboardingFlag, getSignupFlag,
        getKycFlag, getBusinessFlag, getBankFlag]
    | some f =>
      cases f <;>
        simp [save_entity_feature, applyFeature, hf, freshRow, getOnboardingFlag, getSignupFlag,
          getKycFlag, getBusinessFlag, getBankFlag] <;>
        split_ifs <;> simp_all
  | some r =>
    obtain ⟨h1, h2, h3, h4, h5⟩ := updateInfo_flags a r
    simp only [getOnboardingFlag, getSignupFlag, getKycFlag, getBusinessFlag, getBankFlag] at h ⊢
    cases hf : a.feature with
    | none =>
      simp only [save_entity_feature, applyFeature, hf]
      split_ifs with hall
      · simp_all
      · simp only [h1, h2, h3, h4, h5] at hall ⊢
        exact h
    | some f =>
      cases f <;> simp only [save_entity_feature, applyFeature, hf] <;> split_ifs <;>
        simp_all <;>
        (cases hkr : r.kyc_completed <;> cases hbr : r.business_details_completed <;>
          cases hbk : r.bank_details_completed <;> cases hsr : r.signup_completed <;>
          simp_all)

/-- C8: along every history of entity-feature operations (committed or
aborted `save_entity_feature` calls, starting from no row), the reported
`onboarding_completed` is true exactly when all four stage completion flags
are true — it is never set independently of the four flags. -/
theorem onboarding_completed_iff_flags (ops : List (FeatureArgs × Bool)) :
    getOnboardingFlag (applyFeatureOps ops)
      = (getSignupFlag (applyFeatureOps ops) && getKycFlag (applyFeatureOps ops)
          && getBusinessFlag (applyFeatureOps ops) && getBankFlag (applyFeatureOps ops)) := by
  have main : ∀ (l : List (FeatureArgs × Bool)) (db : Option FeatureRow),
      getOnboardingFlag db
          = (getSignupFlag db && getKycFlag db && getBusinessFlag db && getBankFlag db) →
        getOnboardingFlag (l.foldl (fun db1 op => if op.2 then save_entity_feature op.1 db1 else db1) db)
          = (getSignupFlag (l.foldl (fun db1 op => if op.2 then save_entity_feature op.1 db1 else db1) db)
              && getKycFlag (l.foldl (fun db1 op => if op.2 then save_entity_feature op.1 db1 else db1) db)
              && getBusinessFlag (l.foldl (fun db1 op => if op.2 then save_entity_feature op.1 db1 else db1) db)
              && getBankFlag (l.foldl (fun db1 op => if op.2 then save_entity_feature op.1 db1 else db1) db)) := by
    intro l
    induction l with
    | nil => intro db h; simpa using h
    | cons hd tl ih =>
      intro db h
      simp only [List.foldl_cons]
      apply ih
      by_cases hc : hd.2 = true
      · rw [if_pos hc]
        exact save_entity_feature_inv hd.1 db h
      · rw [if_neg hc]
        exact h
  exact main ops none rfl

/-- Helper: committed `save_entity_feature` calls never clear a completion
flag. -/
theorem save_entity_feature_monotone (a : FeatureArgs) (r : FeatureRow) :
    ((updateInfo a r).signup_completed = r.signup_completed
      ∧ (updateInfo a r).kyc_completed = r.kyc_completed
      ∧ (updateInfo a r).business_details_completed = r.business_details_completed
      ∧ (updateInfo a r).bank_details_completed = r.bank_details_completed)
    ∧ ∀ row : FeatureRow,
        (row.signup_completed = true → (applyFeature a row).signup_completed = true)
        ∧ (row.kyc_completed = true → (applyFeature a row).kyc_completed = true)
        ∧ (row.business_details_completed = true →
            (applyFeature a row).business_details_completed = true)
        ∧ (row.bank_details_completed = true →
            (applyFeature a row).bank_details_completed = true) := by
  obtain ⟨h1, h2, h3, h4, _⟩ := updateInfo_flags a r
  refine ⟨⟨h1, h2, h3, h4⟩, ?_⟩
  intro row
  cases hf : a.feature with
  | none => simp [applyFeature, hf]
  | some f =>
    cases f <;> simp only [applyFeature, hf] <;>
      first
        | (refine ⟨?_, ?_, ?_, ?_⟩ <;> intro hx <;> simp [hx])
        | (split_ifs <;> refine ⟨?_, ?_, ?_, ?_⟩ <;> intro hx <;> simp [hx])

/-- C9 counterexample: with `signup_complete` already true, re-invoking the
signup node on different *valid* data whose external entity-creation call
times out overwrites the flag with the failed result — the flag flips back
to false, so not every transition preserves a true completion flag. -/
theorem completed_flag_not_monotone_cex :
    (runValidation janeInput).validation_complete = true
    ∧ (process_signup janeInput (fun _ => ApiAttempt.timeout)).1.success = false
    ∧ stateSignupDone.flags.signup_complete = true
    ∧ (runNode Node.signup stateSignupDone ""
        (process_signup janeInput (fun _ => ApiAttempt.timeout)).1.success).flags.signup_complete
        = false := by
  refine ⟨rfl, rfl, rfl, rfl⟩

/-- C9 (amended): at the persistence layer, `save_entity_feature` never
clears a true completion flag; at the graph layer, the stage node overwrites
the flag with the latest processor result, so a true flag stays true exactly
when the re-invocation succeeds end to end — valid data *and* a successful
external call. -/
theorem completed_flag_monotonic (a : FeatureArgs) (db : Option FeatureRow)
    (inp : SignupInput) (attempts : Nat → ApiAttempt) (s : GState) (llm : String)
    (hv : (runValidation inp).validation_complete = true)
    (hapi : (runApi attempts).1.success = true) :
    (getSignupFlag db = true → getSignupFlag (save_entity_feature a db) = true)
    ∧ (getKycFlag db = true → getKycFlag (save_entity_feature a db) = true)
    ∧ (getBusinessFlag db = true → getBusinessFlag (save_entity_feature a db) = true)
    ∧ (getBankFlag db = true → getBankFlag (save_entity_feature a db) = true)
    ∧ (process_signup inp attempts).1.success = true
    ∧ (runNode Node.signup s llm
        (process_signup inp attempts).1.success).flags.signup_complete = true := by
  have hps : (process_signup inp attempts).1.success = true := by
    simp only [process_signup, hv]
    simp [hapi]
  have hflags : ∀ r : FeatureRow,
      save_entity_feature a (some r)
        = some (let row2 := applyFeature a (updateInfo a r);
            if row2.signup_completed && row2.kyc_completed &&
                row2.business_details_completed && row2.bank_details_completed then
              { row2 with onboarding_completed := true, onboarding_completed_at := some a.now }
            else row2) := fun r => rfl
  refine ⟨?_, ?_, ?_, ?_, hps, ?_⟩
  · cases db with
    | none => intro hx; exact absurd hx (by simp [getSignupFlag])
    | some r =>
      intro hx
      simp only [getSignupFlag] at hx ⊢
      have hm := ((save_entity_feature_monotone a r).2 (updateInfo a r)).1
        (((save_entity_feature_monotone a r).1.1).trans hx)
      simp only [save_entity_feature]
      split_ifs <;> simpa using hm
  · cases db with
    | none => intro hx; exact absurd hx (by simp [getKycFlag])
    | some r =>
      intro hx
      simp only [getKycFlag] at hx ⊢
      have hm := ((save_entity_feature_monotone a r).2 (updateInfo a r)).2.1
        (((save_entity_feature_monotone a r).1.2.1).trans hx)
      simp only [save_entity_feature]
      split_ifs <;> simpa using hm
  · cases db with
    | none => intro hx; exact absurd hx (by simp [getBusinessFlag])
    | some r =>
      intro hx
      simp only [getBusinessFlag] at hx ⊢
      have hm := ((save_entity_feature_monotone a r).2 (updateInfo a r)).2.2.1
        (((save_entity_feature_monotone a r).1.2.2.1).trans hx)
      simp only [save_entity_feature]
      split_ifs <;> simpa using hm
  · cases db with
    | none => intro hx; exact absurd hx (by simp [getBankFlag])
    | some r =>
      intro hx
      simp only [getBankFlag] at hx ⊢
      have hm := ((save_entity_feature_monotone a r).2 (updateInfo a r)).2.2.2
        (((save_entity_feature_monotone a r).1.2.2.2).trans hx)
      simp only [save_entity_feature]
      split_ifs <;> simpa using hm
  · simp [runNode, hps]

/-- Witness for C9 (amended) at concrete inputs: valid data, a succeeding
external call, and a row with the bank stage complete. -/
theorem completed_flag_monotonic_witness :
    (runValidation janeInput).validation_complete = true
    ∧ (runApi (fun _ => ApiAttempt.ok (some "ENT42"))).1.success = true
    ∧ getBankFlag (save_entity_feature { feature := some Feature.signup, now := 7 }
        (some rowBankDone)) = true
    ∧ (runNode Node.signup stateSignupDone "deliver"
        (process_signup janeInput (fun _ => ApiAttempt.ok (some "ENT42"))).1.success).flags.signup_complete
        = true := by
  have h := completed_flag_monotonic { feature := some Feature.signup, now := 7 }
    (some rowBankDone) janeInput (fun _ => ApiAttempt.ok (some "ENT42")) stateSignupDone
    "deliver" (by decide) (by decide)
  exact ⟨by decide, by decide, h.2.2.2.1 (by decide), h.2.2.2.2.2⟩

/-- Helper: whatever the advisory text, the supervisor returns one of the
first four stage names, or `complete` — and in the latter case all four
flags are true.  In particular the `end` branch of the chain is
unreachable. -/
theorem supervisorAgent_cases (f : Flags) (d : String) :
    supervisorAgent f d = AGENT_SIGNUP ∨ supervisorAgent f d = AGENT_COMPANY
    ∨ supervisorAgent f d = AGENT_KYC ∨ supervisorAgent f d = AGENT_BANK
    ∨ (supervisorAgent f d = AGENT_COMPLETE ∧ allFour f = true) := by
  unfold supervisorAgent supervisorNextAgent
  split_ifs with hc1 hc2 hc3 hc4 hc5
  · exact Or.inl rfl
  · exact Or.inr (Or.inl rfl)
  · exact Or.inr (Or.inr (Or.inl rfl))
  · exact Or.inr (Or.inr (Or.inr (Or.inl rfl)))
  · refine Or.inr (Or.inr (Or.inr (Or.inr ⟨rfl, ?_⟩)))
    simp only [Bool.or_eq_true, not_or, Bool.not_eq_true, Bool.and_eq_true,
      Bool.not_eq_true'] at hc1 hc2 hc3 hc4
    obtain ⟨f1, f2, f3, f4⟩ := f
    simp only [allFour] at *
    cases f1 <;> cases f2 <;> cases f3 <;> cases f4 <;> simp_all
  · exfalso
    simp only [Bool.or_eq_true, not_or, Bool.not_eq_true, Bool.and_eq_true,
      Bool.not_eq_true'] at hc1 hc2 hc3 hc4 hc5
    obtain ⟨f1, f2, f3, f4⟩ := f
    cases f1 <;> cases f2 <;> cases f3 <;> cases f4 <;> simp_all

/-- Helper: nodes other than `complete` do not set `task_complete`. -/
theorem runNode_task (n : Node) (s : GState) (x : String) (b : Bool)
    (hn : n ≠ Node.complete) :
    (runNode n s x b).task_complete = s.task_complete := by
  cases n <;> simp_all [runNode]

/-- Helper: one running trajectory step with a routable next agent stays
running. -/
theorem traj_succ_running (env : Nat → String × Bool) (i : Nat) (n : Node) (s : GState)
    (ht : traj env i = TrajPoint.running n s)
    (htask : (graphStep env i n s).task_complete = false)
    (n1 : Node) (hna : parseAgent (graphStep env i n s).next_agent = some n1) :
    traj env (i + 1) = TrajPoint.running n1 (graphStep env i n s) := by
  rw [traj, ht]
  simp only [htask, Bool.false_eq_true, if_false, hna]

/-- Helper: if the flag vector never reaches all-complete along a run, the
trajectory is running forever — the complete node is never entered and
`task_complete` is never set. -/
theorem traj_running_forever (env : Nat → String × Bool)
    (hnever : ∀ i n s, traj env i = TrajPoint.running n s → allFour s.flags = false) :
    ∀ i, ∃ n s, traj env i = TrajPoint.running n s
      ∧ s.task_complete = false ∧ n ≠ Node.complete := by
  intro i
  induction i with
  | zero => exact ⟨.supervisor, initialGState, rfl, rfl, by decide⟩
  | succ i ih =>
    obtain ⟨n, s, ht, htask, hnc⟩ := ih
    have htask1 : (graphStep env i n s).task_complete = false := by
      rw [graphStep, runNode_task n s _ _ hnc, htask]
    cases n with
    | supervisor =>
      have hna : (graphStep env i Node.supervisor s).next_agent
          = supervisorAgent s.flags (env i).1 := rfl
      rcases supervisorAgent_cases s.flags (env i).1 with h | h | h | h | ⟨h, hall⟩
      · refine ⟨.signup, graphStep env i .supervisor s,
          traj_succ_running env i _ s ht htask1 _ ?_, htask1, by decide⟩
        rw [hna, h]; decide
      · refine ⟨.company, graphStep env i .supervisor s,
          traj_succ_running env i _ s ht htask1 _ ?_, htask1, by decide⟩
        rw [hna, h]; decide
      · refine ⟨.kyc, graphStep env i .supervisor s,
          traj_succ_running env i _ s ht htask1 _ ?_, htask1, by decide⟩
        rw [hna, h]; decide
      · refine ⟨.bank, graphStep env i .supervisor s,
          traj_succ_running env i _ s ht htask1 _ ?_, htask1, by decide⟩
        rw [hna, h]; decide
      · exact absurd hall (by simp [hnever i _ _ ht])
    | signup =>
      refine ⟨.supervisor, graphStep env i .signup s,
        traj_succ_running env i _ s ht htask1 _ (by rfl), htask1, by decide⟩
    | company =>
      refine ⟨.supervisor, graphStep env i .company s,
        traj_succ_running env i _ s ht htask1 _ (by rfl), htask1, by decide⟩
    | kyc =>
      refine ⟨.supervisor, graphStep env i .kyc s,
        traj_succ_running env i _ s ht htask1 _ (by rfl), htask1, by decide⟩
    | bank =>
      refine ⟨.supervisor, graphStep env i .bank s,
        traj_succ_running env i _ s ht htask1 _ (by rfl), htask1, by decide⟩
    | complete => exact absurd rfl hnc

/-- Helper: a forever-running trajectory makes `runLoop` exhaust any fuel. -/
theorem runLoop_never_done (env : Nat → String × Bool)
    (hrun : ∀ i, ∃ n s, traj env i = TrajPoint.running n s) :
    ∀ fuel i n s, traj env i = TrajPoint.running n s →
      runLoop env fuel i n s = RunResult.limitExceeded := by
  intro fuel
  induction fuel with
  | zero => intro i n s ht; rfl
  | succ fuel ih =>
    intro i n s ht
    obtain ⟨n1, s1, ht1⟩ := hrun (i + 1)
    have hstep : traj env (i + 1)
        = (if (graphStep env i n s).task_complete then
            TrajPoint.haltedDone (graphStep env i n s)
          else
            match parseAgent (graphStep env i n s).next_agent with
            | some m => TrajPoint.running m (graphStep env i n s)
            | none => TrajPoint.haltedBad) := by
      rw [traj, ht]
    rw [hstep] at ht1
    by_cases htask : (graphStep env i n s).task_complete = true
    · rw [if_pos htask] at ht1
      exact absurd ht1 (by simp)
    · have htaskf : (graphStep env i n s).task_complete = false :=
        Bool.eq_false_iff.mpr htask
      rw [if_neg htask] at ht1
      cases hpa : parseAgent (graphStep env i n s).next_agent with
      | none => rw [hpa] at ht1; exact absurd ht1 (by simp)
      | some m =>
        rw [hpa] at ht1
        have ht2 : traj env (i + 1) = TrajPoint.running m (graphStep env i n s) := by
          rw [hstep, if_neg htask, hpa]
        simp only [runLoop, htaskf, Bool.false_eq_true, if_false, hpa]
        exact ih (i + 1) m (graphStep env i n s) ht2

/-- Helper: a completed run consumed at most the available fuel. -/
theorem runLoop_done_bound (env : Nat → String × Bool) :
    ∀ fuel i n s s1 k, runLoop env fuel i n s = RunResult.done s1 k → k ≤ i + fuel := by
  intro fuel
  induction fuel with
  | zero => intro i n s s1 k h; simp [runLoop] at h
  | succ fuel ih =>
    intro i n s s1 k h
    simp only [runLoop] at h
    split at h
    · rw [RunResult.done.injEq] at h
      omega
    · split at h
      · have := ih _ _ _ _ _ h
        omega
      · simp at h

/-- C3: every run of `process_onboarding` finishes within the fixed ceiling
of 50 graph supersteps; when the flag vector never reaches all-complete the
run never finishes on its own — it is cut off exactly when the ceiling (any
ceiling) is exhausted — and the overrun is surfaced to the caller as a
result with `status = STATUS_ERROR` carrying an error entry, not as a
silently truncated normal result. -/
theorem process_onboarding_step_ceiling (env : Nat → String × Bool)
    (hnever : ∀ i n s, traj env i = TrajPoint.running n s → allFour s.flags = false) :
    (∀ (env1 : Nat → String × Bool) (s1 : GState) (k : Nat),
        invokeGraph env1 = RunResult.done s1 k → k ≤ RECURSION_LIMIT)
    ∧ (∀ fuel : Nat, runLoop env fuel 0 Node.supervisor initialGState
        = RunResult.limitExceeded)
    ∧ invokeGraph env = RunResult.limitExceeded
    ∧ process_onboarding env
        = { status := STATUS_ERROR, errorSurfaced := true, flags := none } := by
  have hrun0 : ∀ i, ∃ n s, traj env i = TrajPoint.running n s := by
    intro i
    obtain ⟨n, s, h, _, _⟩ := traj_running_forever env hnever i
    exact ⟨n, s, h⟩
  have hlim : ∀ fuel, runLoop env fuel 0 .supervisor initialGState = .limitExceeded :=
    fun fuel => runLoop_never_done env hrun0 fuel 0 .supervisor initialGState rfl
  refine ⟨?_, hlim, hlim RECURSION_LIMIT, ?_⟩
  · intro env1 s1 k h
    simp only [invokeGraph] at h
    have := runLoop_done_bound env1 RECURSION_LIMIT 0 .supervisor initialGState s1 k h
    simpa using this
  · have h1 : invokeGraph env = RunResult.limitExceeded := hlim RECURSION_LIMIT
    simp only [process_onboarding, h1]

/-- Helper: in the all-failures environment the flags stay all-false along
the whole trajectory. -/
theorem traj_envAllFail_flags :
    ∀ i n s, traj envAllFail i = TrajPoint.running n s
      → s.flags = ⟨false, false, false, false⟩ := by
  intro i
  induction i with
  | zero =>
    intro n s h
    simp only [traj, TrajPoint.running.injEq] at h
    rw [← h.2]
    rfl
  | succ i ih =>
    intro n s h
    cases hprev : traj envAllFail i with
    | haltedDone s0 =>
      have hstep : traj envAllFail (i + 1) = TrajPoint.haltedDone s0 := by rw [traj, hprev]
      rw [hstep] at h
      exact absurd h (by simp)
    | haltedBad =>
      have hstep : traj envAllFail (i + 1) = TrajPoint.haltedBad := by rw [traj, hprev]
      rw [hstep] at h
      exact absurd h (by simp)
    | running n0 s0 =>
      have hf := ih n0 s0 hprev
      have hstep : traj envAllFail (i + 1)
          = (if (graphStep envAllFail i n0 s0).task_complete then
              TrajPoint.haltedDone (graphStep envAllFail i n0 s0)
            else
              match parseAgent (graphStep envAllFail i n0 s0).next_agent with
              | some n1 => TrajPoint.running n1 (graphStep envAllFail i n0 s0)
              | none => TrajPoint.haltedBad) := by
        rw [traj, hprev]
      rw [hstep] at h
      split at h
      · exact absurd h (by simp)
      · split at h
        · rw [TrajPoint.running.injEq] at h
          rw [← h.2]
          cases n0 <;> simp [graphStep, runNode, envAllFail, hf]
        · exact absurd h (by simp)

/-- Witness for C3 in the environment where every stage processor fails:
the run aborts at the ceiling and is surfaced as an error result. -/
theorem process_onboarding_step_ceiling_witness :
    invokeGraph envAllFail = RunResult.limitExceeded
    ∧ process_onboarding envAllFail
        = { status := STATUS_ERROR, errorSurfaced := true, flags := none } := by
  have h := process_onboarding_step_ceiling envAllFail
    (fun i n s ht => by simp [allFour, traj_envAllFail_flags i n s ht])
  exact ⟨h.2.2.1, h.2.2.2⟩

end Onboarding

